import Mathlib

/-!
Verification of the domain-lookup-tool repository (Next.js / TypeScript).

Shallow embedding of the request-validation and response-normalization layer:
  * `src/app/lib/utils.ts` (formatDate, formatHostnames, contact-name resolvers),
  * `src/app/api/domain-lookup/route.ts` (GET handler: parameter validation,
    domain cleaning, upstream HTTP status mapping, body processing, field
    extraction),
  * `src/app/api/ai-lookup/route.ts` (POST handler: response-text validation).

JavaScript strings are modelled as Lean `String` (code points instead of
UTF-16 units; identical on the ASCII data handled here).  JavaScript string
primitives (`trim`, `toLowerCase`, `split(sep)[0]`, `substring(0, n)`,
`join`, `startsWith`, `includes`) are embedded as structurally recursive
list-based functions so that closed instances reduce in the kernel.
Absent / `undefined` values are modelled with `Option`; JavaScript
truthiness on strings (`""` is falsy) is made explicit at each use site.
-/

namespace DomainLookup

/-- JavaScript whitespace characters handled by `String.prototype.trim`
(the ASCII subset: space, tab, LF, CR, VT, FF). -/
def wsChar (c : Char) : Bool :=
  c == ' ' || c == '\t' || c == '\n' || c == '\r' || c.val == 11 || c.val == 12

/-- Embedding of JavaScript `s.trim()`. -/
def jsTrim (s : String) : String :=
  String.mk (((s.toList.dropWhile wsChar).reverse.dropWhile wsChar).reverse)

/-- ASCII lowercasing of one character, as `String.prototype.toLowerCase`
acts on the ASCII range (the only range relevant to the charset check,
since non-ASCII characters fail it whether or not they are case-mapped). -/
def lowerChar (c : Char) : Char :=
  if 'A' ≤ c && c ≤ 'Z' then Char.ofNat (c.toNat + 32) else c

/-- Embedding of JavaScript `s.toLowerCase()`. -/
def jsToLowerCase (s : String) : String :=
  String.mk (s.toList.map lowerChar)

/-- Embedding of JavaScript `s.split(sep)[0]` for a one-character separator:
the longest prefix of `s` not containing the separator. -/
def jsSplitHead (sep : Char) (s : String) : String :=
  String.mk (s.toList.takeWhile (fun c => c != sep))

/-- Embedding of JavaScript `s.startsWith(p)`. -/
def jsStartsWith (s p : String) : Bool :=
  p.toList.isPrefixOf s.toList

/-- Embedding of JavaScript `s.endsWith(p)`. -/
def jsEndsWith (s p : String) : Bool :=
  p.toList.reverse.isPrefixOf s.toList.reverse

/-- Embedding of JavaScript `s.includes(c)` for a one-character needle. -/
def jsIncludesChar (s : String) (c : Char) : Bool :=
  s.toList.contains c

/-- Embedding of JavaScript `s.substring(0, n)`. -/
def jsSubstringTo (n : Nat) (s : String) : String :=
  String.mk (s.toList.take n)

/-- Embedding of JavaScript `Array.prototype.join(sep)` on string arrays. -/
def jsJoin (sep : String) : List String → String
  | [] => ""
  | [x] => x
  | x :: y :: rest => x ++ sep ++ jsJoin sep (y :: rest)

/-- Embedding of JavaScript `v || d` for an optional string `v`:
`undefined` and the empty string are falsy. -/
def jsOrElse (v : Option String) (d : String) : String :=
  match v with
  | some s => if s = "" then d else s
  | none => d

/-- JavaScript truthiness of an optional string (`undefined`/`null` and
`""` are falsy). -/
def jsTruthyStr (v : Option String) : Bool :=
  match v with
  | some s => s != ""
  | none => false

/-- Embedding of JavaScript `v || d` for an optional number `v` (`0` is
falsy, so `some 0` also yields the default). -/
def jsOrElseInt (v : Option Int) (d : Int) : Int :=
  match v with
  | some n => if n = 0 then d else n
  | none => d

/-! ## src/app/lib/utils.ts -/

/-- Contact block of the upstream WHOIS record (`Contact` in
`src/app/lib/types.ts`); only the two fields read by the code are kept
(`organization`, `name`), both optional. -/
structure Contact where
  organization : Option String := none
  name : Option String := none
deriving DecidableEq, Repr

/-- utils.ts `formatHostnames`: `undefined` or a non-array is modelled as
`none`.  Mirrors the source: bail out to "N/A" on a missing or empty
array, otherwise `join(", ")` and, when longer than 25, truncate with
`substring(0, 22) + "..."`. -/
def formatHostnames (hostnames : Option (List String)) : String :=
  match hostnames with
  | none => "N/A"
  | some hs =>
    if hs.length = 0 then "N/A"
    else
      let hostnameString := jsJoin ", " hs
      if hostnameString.length > 25 then jsSubstringTo 22 hostnameString ++ "..."
      else hostnameString

/-- utils.ts `getRegistrantName`: `registrant.organization || registrant.name || "N/A"`
after an `undefined` guard. -/
def getRegistrantName (registrant : Option Contact) : String :=
  match registrant with
  | none => "N/A"
  | some r => jsOrElse r.organization (jsOrElse r.name "N/A")

/-- utils.ts `getTechnicalContactName`, same body as `getRegistrantName`. -/
def getTechnicalContactName (technicalContact : Option Contact) : String :=
  match technicalContact with
  | none => "N/A"
  | some r => jsOrElse r.organization (jsOrElse r.name "N/A")

/-- utils.ts `getAdministrativeContactName`, same body as `getRegistrantName`. -/
def getAdministrativeContactName (administrativeContact : Option Contact) : String :=
  match administrativeContact with
  | none => "N/A"
  | some r => jsOrElse r.organization (jsOrElse r.name "N/A")

/-! ## JavaScript Date model

`formatDate` in utils.ts relies on `new Date(string)` followed by
`toISOString()`.  We embed the ECMAScript Date Time String Format — the
portion of `Date.parse` fixed by ECMA-262 — as `jsDateParse`, producing the
time value in milliseconds since the Unix epoch, and `toISOString` via the
standard civil-calendar conversions.  A date-time without an offset
designator is interpreted against a UTC host clock; extended six-digit
years on input and sub-second digit counts other than three are outside the
embedded grammar (none of them are exercised by this code's data paths). -/

/-- Days since 1970-01-01 of a civil date (proleptic Gregorian). -/
def daysFromCivil (y : Int) (m d : Nat) : Int :=
  let y' := if m ≤ 2 then y - 1 else y
  let era := y'.ediv 400
  let yoe := (y' - era * 400).toNat
  let mp := if m > 2 then m - 3 else m + 9
  let doy := (153 * mp + 2) / 5 + d - 1
  let doe := yoe * 365 + yoe / 4 - yoe / 100 + doy
  era * 146097 + (doe : Int) - 719468

/-- Civil date (year, month, day) of a count of days since 1970-01-01. -/
def civilFromDays (z0 : Int) : Int × Nat × Nat :=
  let z := z0 + 719468
  let era := z.ediv 146097
  let doe := (z - era * 146097).toNat
  let yoe := (doe - doe / 1460 + doe / 36524 - doe / 146096) / 365
  let y := (yoe : Int) + era * 400
  let doy := doe - (365 * yoe + yoe / 4 - yoe / 100)
  let mp := (5 * doy + 2) / 153
  let d := doy - (153 * mp + 2) / 5 + 1
  let m := if mp < 10 then mp + 3 else mp - 9
  (if m ≤ 2 then y + 1 else y, m, d)

/-- Length of a month, with Gregorian leap years. -/
def daysInMonth (y m : Nat) : Nat :=
  if m = 2 then (if y % 4 = 0 && (y % 100 ≠ 0 || y % 400 = 0) then 29 else 28)
  else if m = 4 ∨ m = 6 ∨ m = 9 ∨ m = 11 then 30 else 31

/-- Consume exactly `n` decimal digits, returning their value. -/
def takeDigits : Nat → Nat → List Char → Option (Nat × List Char)
  | 0, acc, l => some (acc, l)
  | _+1, _, [] => none
  | k+1, acc, c :: rest =>
    if c.isDigit then takeDigits k (acc * 10 + (c.toNat - 48)) rest else none

/-- Parse the time part `HH:mm[:ss[.sss]]` of the date-time string format. -/
def parseTimePart (l : List Char) : Option (Nat × Nat × Nat × Nat × List Char) := do
  let (hh, l) ← takeDigits 2 0 l
  match l with
  | ':' :: l => do
    let (mi, l) ← takeDigits 2 0 l
    match l with
    | ':' :: l => do
      let (ss, l) ← takeDigits 2 0 l
      match l with
      | '.' :: l => do
        let (ms, l) ← takeDigits 3 0 l
        pure (hh, mi, ss, ms, l)
      | _ => pure (hh, mi, ss, 0, l)
    | _ => pure (hh, mi, 0, 0, l)
  | _ => none

/-- Parse a signed `HH:mm` offset designator body, in minutes. -/
def parseOffsetBody (sign : Int) (l : List Char) : Option (Int × List Char) := do
  let (oh, l) ← takeDigits 2 0 l
  match l with
  | ':' :: l => do
    let (om, l) ← takeDigits 2 0 l
    if oh ≤ 23 && om ≤ 59 then pure (sign * ((oh : Int) * 60 + om), l) else none
  | _ => none

/-- Parse the optional offset designator `Z` / `+HH:mm` / `-HH:mm`;
returns the offset in minutes when one is present. -/
def parseOffsetPart (l : List Char) : Option (Option Int × List Char) :=
  match l with
  | 'Z' :: rest => some (some 0, rest)
  | '+' :: rest =>
    match parseOffsetBody 1 rest with
    | some (off, l) => some (some off, l)
    | none => none
  | '-' :: rest =>
    match parseOffsetBody (-1) rest with
    | some (off, l) => some (some off, l)
    | none => none
  | l => some (none, l)

/-- Largest legal ECMAScript time value, in milliseconds (8.64e15). -/
def maxTimeValue : Nat := 8640000000000000

/-- Embedding of ECMAScript `Date.parse` on the Date Time String Format
`YYYY[-MM[-DD]][THH:mm[:ss[.sss]][Z|+HH:mm|-HH:mm]]`: `some` time value in
milliseconds since the epoch on success, `none` for an Invalid Date. -/
def jsDateParse (s : String) : Option Int := do
  let l := s.toList
  let (y, l) ← takeDigits 4 0 l
  let (m, d, l) ←
    match l with
    | '-' :: l1 => do
        let (m, l2) ← takeDigits 2 0 l1
        match l2 with
        | '-' :: l3 => do
            let (d, l4) ← takeDigits 2 0 l3
            pure (m, d, l4)
        | _ => pure (m, 1, l2)
    | _ => pure (1, 1, l)
  if 1 ≤ m ∧ m ≤ 12 ∧ 1 ≤ d ∧ d ≤ daysInMonth y m then
    match l with
    | [] =>
      let t := daysFromCivil (y : Int) m d * 86400000
      if t.natAbs ≤ maxTimeValue then some t else none
    | 'T' :: l => do
      let (hh, mi, ss, ms, l) ← parseTimePart l
      let (off, l) ← parseOffsetPart l
      if l = [] ∧ hh ≤ 23 ∧ mi ≤ 59 ∧ ss ≤ 59 then
        let t := daysFromCivil (y : Int) m d * 86400000
          + ((hh * 3600000 + mi * 60000 + ss * 1000 + ms : Nat) : Int)
          - (off.getD 0) * 60000
        if t.natAbs ≤ maxTimeValue then some t else none
      else none
    | _ => none
  else none

/-- Decimal digit character of `n % 10`. -/
def digitChar (n : Nat) : Char :=
  match n % 10 with
  | 0 => '0' | 1 => '1' | 2 => '2' | 3 => '3' | 4 => '4'
  | 5 => '5' | 6 => '6' | 7 => '7' | 8 => '8' | _ => '9'

/-- Two-digit zero-padded decimal rendering. -/
def pad2 (n : Nat) : List Char := [digitChar (n / 10), digitChar n]

/-- Three-digit zero-padded decimal rendering. -/
def pad3 (n : Nat) : List Char := [digitChar (n / 100), digitChar (n / 10), digitChar n]

/-- Four-digit zero-padded decimal rendering. -/
def pad4 (n : Nat) : List Char :=
  [digitChar (n / 1000), digitChar (n / 100), digitChar (n / 10), digitChar n]

/-- Six-digit zero-padded decimal rendering (extended years). -/
def pad6 (n : Nat) : List Char :=
  [digitChar (n / 100000), digitChar (n / 10000), digitChar (n / 1000),
   digitChar (n / 100), digitChar (n / 10), digitChar n]

/-- Year field of `toISOString`: four digits in 0..9999, otherwise the
signed six-digit extended form. -/
def isoYearChars (y : Int) : List Char :=
  if 0 ≤ y ∧ y ≤ 9999 then pad4 y.toNat
  else if y < 0 then '-' :: pad6 (-y).toNat
  else '+' :: pad6 y.toNat

/-- Date part `YYYY-MM-DD` of `toISOString`. -/
def isoDateChars (y : Int) (m d : Nat) : List Char :=
  isoYearChars y ++ '-' :: (pad2 m ++ '-' :: pad2 d)

/-- Time-of-day part `HH:mm:ss.sssZ` of `toISOString`. -/
def isoTimeChars (msOfDay : Nat) : List Char :=
  pad2 (msOfDay / 3600000) ++ ':' :: (pad2 (msOfDay % 3600000 / 60000)
    ++ ':' :: (pad2 (msOfDay % 60000 / 1000) ++ '.' :: (pad3 (msOfDay % 1000) ++ ['Z'])))

/-- ECMAScript `Date.prototype.toISOString` on a time value. -/
def toISOString (t : Int) : String :=
  let c := civilFromDays (t.ediv 86400000)
  String.mk (isoDateChars c.1 c.2.1 c.2.2 ++ 'T' :: isoTimeChars (t.emod 86400000).toNat)

/-- utils.ts `formatDate`: falsy input yields "N/A"; otherwise
`new Date(dateString).toISOString().split("T")[0]`, where `toISOString`
throwing on an Invalid Date is caught and mapped to "N/A". -/
def formatDate (dateString : Option String) : String :=
  match dateString with
  | none => "N/A"
  | some ds =>
    if ds = "" then "N/A"
    else
      match jsDateParse ds with
      | some t => jsSplitHead 'T' (toISOString t)
      | none => "N/A"

/-! ## src/app/api/domain-lookup/route.ts -/

/-- Characters accepted by the handler's charset check
`/^[a-z0-9.-]+$/` on the cleaned domain. -/
def domainCharOk (c : Char) : Bool :=
  ('a' ≤ c && c ≤ 'z') || ('0' ≤ c && c ≤ '9') || c == '.' || c == '-'

/-- The handler's `domain.replace(/^https?:\/\//, "")`: the regular
expression has no case-insensitivity flag, so only a lowercase scheme is
stripped. -/
def stripScheme (s : String) : String :=
  if jsStartsWith s "https://" then String.mk (s.toList.drop 8)
  else if jsStartsWith s "http://" then String.mk (s.toList.drop 7)
  else s

/-- Domain cleaning (route.ts lines 91-95): strip a (lowercase) scheme,
drop everything from the first `/`, lowercase, trim. -/
def cleanDomainOf (domain : String) : String :=
  jsTrim (jsToLowerCase (jsSplitHead '/' (stripScheme domain)))

/-- Checks on the raw `domain` query parameter (route.ts lines 47-68):
missing, falsy-empty, whitespace-only, or over the 253-character RFC 1035
bound.  Returns the early `(status, message)` response when one fires. -/
def domainParamCheck (domain : Option String) : Option (Nat × String) :=
  match domain with
  | none => some (400, "Domain parameter is required")
  | some d =>
    if d = "" then some (400, "Domain parameter is required")
    else if (jsTrim d).length = 0 then
      some (400, "Domain parameter must be a non-empty string")
    else if d.length > 253 then
      some (400, "Domain name is too long (maximum 253 characters)")
    else none

/-- Checks on the `type` query parameter (route.ts lines 71-85).  The
source message quotes the two accepted words with single quotation marks;
the quotation marks are omitted here. -/
def typeParamCheck (type_ : Option String) : Option (Nat × String) :=
  if jsTruthyStr type_ = false then some (400, "Type parameter is required")
  else if type_.getD "" = "domain" ∨ type_.getD "" = "contact" then none
  else some (400, "Type parameter must be domain or contact")

/-- Clean-and-validate block (route.ts lines 88-122): every `throw` inside
the block is caught and answered with 400 "Invalid domain format". -/
def cleanAndCheck (domain : String) : Except (Nat × String) String :=
  let c := cleanDomainOf domain
  if c.length = 0 then .error (400, "Invalid domain format")
  else if !(jsIncludesChar c '.') || jsStartsWith c "." || jsEndsWith c "." then
    .error (400, "Invalid domain format")
  else if c.toList.all domainCharOk then .ok c
  else .error (400, "Invalid domain format")

/-- The domain-validation step of the GET handler: the raw-parameter checks
followed by the clean-and-validate block, yielding the cleaned domain. -/
def validateDomain (domain : String) : Except (Nat × String) String :=
  match domainParamCheck (some domain) with
  | some e => .error e
  | none => cleanAndCheck domain

/-- Validation phase of the GET handler in source order (route.ts lines
36-122): WHOIS_API_KEY presence, domain parameter, type parameter, domain
cleaning.  `some (status, message)` is an early error response; `none`
means the handler proceeds to the upstream call. -/
def getRouteChecks (whoisApiKey domain type_ : Option String) : Option (Nat × String) :=
  if jsTruthyStr whoisApiKey = false then
    some (500, "WHOIS service is not properly configured")
  else
    match domainParamCheck domain with
    | some e => some e
    | none =>
      match typeParamCheck type_ with
      | some e => some e
      | none =>
        match cleanAndCheck (domain.getD "") with
        | .error e => some e
        | .ok _ => none

/-- Name-server block of the upstream record (`NameServers` in types.ts);
only `hostNames` is read by the handler. -/
structure NameServers where
  hostNames : Option (List String) := none
deriving DecidableEq, Repr

/-- Upstream WHOIS record (`WhoisRecord` in types.ts), restricted to the
fields the handler reads; every field optional. -/
structure WhoisRecord where
  createdDate : Option String := none
  expiresDate : Option String := none
  registrant : Option Contact := none
  technicalContact : Option Contact := none
  administrativeContact : Option Contact := none
  domainName : Option String := none
  nameServers : Option NameServers := none
  registrarName : Option String := none
  contactEmail : Option String := none
  estimatedDomainAge : Option Int := none
deriving DecidableEq, Repr

/-- Normalized projection returned for `type=domain`
(`DomainInformation` in types.ts). -/
structure DomainInformation where
  domainName : String
  registrar : String
  registrationDate : String
  expirationDate : String
  estimatedDomainAge : Int
  hostnames : String
deriving DecidableEq, Repr

/-- Normalized projection returned for `type=contact`
(`ContactInformation` in types.ts). -/
structure ContactInformation where
  registrantName : String
  technicalContactName : String
  administrativeContactName : String
  contactEmail : String
deriving DecidableEq, Repr

/-- The handler's `whoisRecord.nameServers?.hostNames || []`: optional
chaining collapses a missing block or missing list to `[]` (an empty
array is truthy in JavaScript, so a present empty list stays as is). -/
def hostNamesOf (r : WhoisRecord) : List String :=
  match r.nameServers with
  | some ns => ns.hostNames.getD []
  | none => []

/-- Construction of the `domainInformation` payload (route.ts lines
269-278). -/
def buildDomainInfo (whoisRecord : WhoisRecord) (cleanDomain : String) : DomainInformation :=
  { domainName := jsOrElse whoisRecord.domainName cleanDomain
    registrar := jsOrElse whoisRecord.registrarName "N/A"
    registrationDate := formatDate whoisRecord.createdDate
    expirationDate := formatDate whoisRecord.expiresDate
    estimatedDomainAge := jsOrElseInt whoisRecord.estimatedDomainAge 0
    hostnames := formatHostnames (some (hostNamesOf whoisRecord)) }

/-- Construction of the `contactInformation` payload (route.ts lines
299-308). -/
def buildContactInfo (whoisRecord : WhoisRecord) : ContactInformation :=
  { registrantName := getRegistrantName whoisRecord.registrant
    technicalContactName := getTechnicalContactName whoisRecord.technicalContact
    administrativeContactName := getAdministrativeContactName whoisRecord.administrativeContact
    contactEmail := jsOrElse whoisRecord.contactEmail "N/A" }

/-- Outcome of `await response.json()` on the provider body: parse failure,
a parsed non-object (or `null`), or an object carrying an optional
`WhoisRecord` and an optional `ErrorMessage`. -/
inductive JsonBody where
  | unparseable
  | nonObject
  | obj (whoisRecord : Option WhoisRecord) (errorMessage : Option String)
deriving DecidableEq, Repr

/-- Successful payload of the GET handler. -/
inductive LookupPayload where
  | domainInfo (d : DomainInformation)
  | contactInfo (c : ContactInformation)
deriving DecidableEq, Repr

/-- Body-processing stage of the GET handler (route.ts lines 228-324),
after a 2xx upstream status: parse errors and a missing record map to
error responses, otherwise the record is projected according to `type`.
`none` models the unreachable fall-through for a `type` outside
{domain, contact} (excluded earlier by `typeParamCheck`). -/
def processWhoisBody (type_ cleanDomain : String) (data : JsonBody) :
    Option (Except (Nat × String) LookupPayload) :=
  match data with
  | .unparseable => some (.error (500, "Invalid response format from WHOIS service"))
  | .nonObject => some (.error (500, "Invalid response from WHOIS service"))
  | .obj whoisRecord errorMessage =>
    match whoisRecord with
    | none =>
      if jsTruthyStr errorMessage then
        some (.error (400, "WHOIS lookup failed: " ++ errorMessage.getD ""))
      else
        some (.error (404, "No WHOIS record found for this domain"))
    | some wr =>
      if type_ = "domain" then some (.ok (.domainInfo (buildDomainInfo wr cleanDomain)))
      else if type_ = "contact" then some (.ok (.contactInfo (buildContactInfo wr)))
      else none

/-- Upstream HTTP response as seen after `fetch` resolves: status code,
status text, and the (possibly unparseable) body. -/
structure UpstreamResponse where
  status : Nat
  statusText : String
  body : JsonBody
deriving DecidableEq, Repr

/-- `Response.ok`: status in the 2xx range. -/
def httpOk (status : Nat) : Bool :=
  200 ≤ status && status < 300

/-- Mapping of non-2xx upstream statuses to handler responses (the
`switch` in route.ts lines 188-225). -/
def mapWhoisHttpError (status : Nat) (statusText : String) : Nat × String :=
  if status = 400 then (400, "Invalid domain name or request format")
  else if status = 401 then (500, "WHOIS API authentication failed")
  else if status = 403 then (500, "WHOIS API access forbidden")
  else if status = 429 then (429, "WHOIS API rate limit exceeded. Please try again later.")
  else if status = 500 ∨ status = 502 ∨ status = 503 then
    (503, "WHOIS service is temporarily unavailable")
  else (500, "WHOIS service error: " ++ statusText)

/-- Response-processing stage of the GET handler (route.ts lines 182-324):
a non-2xx status is mapped by `mapWhoisHttpError` without touching the
body; a 2xx status hands the body to `processWhoisBody`. -/
def processWhoisResponse (type_ cleanDomain : String) (resp : UpstreamResponse) :
    Option (Except (Nat × String) LookupPayload) :=
  if httpOk resp.status then processWhoisBody type_ cleanDomain resp.body
  else some (.error (mapWhoisHttpError resp.status resp.statusText))

/-! ## src/app/api/ai-lookup/route.ts -/

/-- The `response.text` value of the generation call: absent
(`undefined`/`null`), an actual string, or a defined non-string value. -/
inductive GenText where
  | missing
  | str (s : String)
  | nonString
deriving DecidableEq, Repr

/-- Response-text validation of the POST handler (route.ts lines 169-192):
`!responseText || typeof responseText !== "string"` rejects absent,
empty-string and non-string values; a string trimming to empty is
rejected; otherwise the trimmed text is returned verbatim. -/
def validateAiResponseText (t : GenText) : Except (Nat × String) String :=
  match t with
  | .missing => .error (500, "AI service returned invalid response")
  | .nonString => .error (500, "AI service returned invalid response")
  | .str s =>
    if s = "" then .error (500, "AI service returned invalid response")
    else
      let trimmed := jsTrim s
      if trimmed.length = 0 then .error (500, "AI service returned empty response")
      else .ok trimmed

/-! ## Reference definitions taken from the specification's words -/

/-- Reference definition of `formatHostnames` following the words of the
specification (claim C1): filter out blank entries, return the fallback
token when none survive, else join with ", " and truncate to 22
characters plus the ellipsis when the joined string exceeds 25.
Non-string entries are already excluded by the typed model. -/
def formatHostnamesSpec (hostnames : Option (List String)) : String :=
  let survivors := (hostnames.getD []).filter (fun h => h != "")
  if survivors.isEmpty then "N/A"
  else
    let s := jsJoin ", " survivors
    if s.length > 25 then jsSubstringTo 22 s ++ "..." else s

/-- Reference contact-name resolution rule following the words of the
specification (claim C9): the organization when present and non-empty,
else the name when present and non-empty, else the fallback token. -/
def resolveContactNameSpec (contact : Option Contact) : String :=
  match contact with
  | none => "N/A"
  | some c =>
    match c.organization with
    | some o =>
      if o ≠ "" then o
      else
        match c.name with
        | some n => if n ≠ "" then n else "N/A"
        | none => "N/A"
    | none =>
      match c.name with
      | some n => if n ≠ "" then n else "N/A"
      | none => "N/A"

/-! ## Helper lemmas -/

theorem strLenAppend (a b : String) : (a ++ b).length = a.length + b.length := by
  cases a
  cases b
  simp [String.length, String.append]

theorem strLenZeroIff (s : String) : s.length = 0 ↔ s = "" := by
  cases s with
  | mk l =>
    constructor
    · intro h
      have hl : l = [] := List.length_eq_zero.mp h
      subst hl
      rfl
    · intro h
      have hl : l = [] := congrArg String.data h
      simp [String.length, hl]

theorem mkNeEmpty (l : List Char) (h : l ≠ []) : String.mk l ≠ "" := by
  intro he
  exact h (congrArg String.data he)

theorem digitChar_bne_T (n : Nat) : (digitChar n != 'T') = true := by
  unfold digitChar
  split <;> decide

theorem bne_T_of_mem_pad2 (n : Nat) : ∀ x ∈ pad2 n, (x != 'T') = true := by
  intro x hx
  simp only [pad2, List.mem_cons, List.not_mem_nil, or_false] at hx
  rcases hx with h | h <;> (subst h; exact digitChar_bne_T _)

theorem bne_T_of_mem_pad4 (n : Nat) : ∀ x ∈ pad4 n, (x != 'T') = true := by
  intro x hx
  simp only [pad4, List.mem_cons, List.not_mem_nil, or_false] at hx
  rcases hx with h | h | h | h <;> (subst h; exact digitChar_bne_T _)

theorem bne_T_of_mem_pad6 (n : Nat) : ∀ x ∈ pad6 n, (x != 'T') = true := by
  intro x hx
  simp only [pad6, List.mem_cons, List.not_mem_nil, or_false] at hx
  rcases hx with h | h | h | h | h | h <;> (subst h; exact digitChar_bne_T _)

theorem bne_T_of_mem_isoYearChars (y : Int) : ∀ x ∈ isoYearChars y, (x != 'T') = true := by
  intro x hx
  unfold isoYearChars at hx
  split at hx
  · exact bne_T_of_mem_pad4 _ x hx
  · split at hx <;>
    · rcases List.mem_cons.mp hx with h | h
      · subst h; decide
      · exact bne_T_of_mem_pad6 _ x h

theorem bne_T_of_mem_isoDateChars (y : Int) (m d : Nat) :
    ∀ x ∈ isoDateChars y m d, (x != 'T') = true := by
  intro x hx
  simp only [isoDateChars, List.mem_append, List.mem_cons] at hx
  rcases hx with h | h | h | h | h
  · exact bne_T_of_mem_isoYearChars y x h
  · subst h; decide
  · exact bne_T_of_mem_pad2 _ x h
  · subst h; decide
  · exact bne_T_of_mem_pad2 _ x h

theorem takeWhile_append_stop (c : Char) (l₁ l₂ : List Char)
    (h : ∀ x ∈ l₁, (x != c) = true) :
    (l₁ ++ c :: l₂).takeWhile (fun x => x != c) = l₁ := by
  induction l₁ with
  | nil => simp [List.takeWhile_cons]
  | cons a t ih =>
    have ha : (a != c) = true := h a (by simp)
    simp only [List.cons_append, List.takeWhile_cons, ha, if_true]
    rw [ih fun x hx => h x (by simp [hx])]

theorem isoDateChars_ne_nil (y : Int) (m d : Nat) : isoDateChars y m d ≠ [] := by
  simp [isoDateChars]

theorem jsSplitHead_toISOString (t : Int) :
    jsSplitHead 'T' (toISOString t) =
      String.mk (isoDateChars (civilFromDays (t.ediv 86400000)).1
        (civilFromDays (t.ediv 86400000)).2.1 (civilFromDays (t.ediv 86400000)).2.2) := by
  unfold toISOString jsSplitHead
  refine congrArg String.mk ?_
  exact takeWhile_append_stop 'T' _ _
    (bne_T_of_mem_isoDateChars (civilFromDays (t.ediv 86400000)).1
      (civilFromDays (t.ediv 86400000)).2.1 (civilFromDays (t.ediv 86400000)).2.2)

theorem formatDate_ne_empty (ds : Option String) : formatDate ds ≠ "" := by
  cases ds with
  | none => decide
  | some s =>
    simp only [formatDate]
    by_cases h : s = ""
    · rw [if_pos h]; decide
    · rw [if_neg h]
      cases hp : jsDateParse s with
      | none => decide
      | some t =>
        show jsSplitHead 'T' (toISOString t) ≠ ""
        rw [jsSplitHead_toISOString]
        exact mkNeEmpty _ (isoDateChars_ne_nil _ _ _)

theorem jsJoin_length_ge (sep : String) (h : String) (t : List String) :
    h.length ≤ (jsJoin sep (h :: t)).length := by
  cases t with
  | nil => simp [jsJoin]
  | cons y r =>
    show h.length ≤ (h ++ sep ++ jsJoin sep (y :: r)).length
    rw [strLenAppend, strLenAppend]
    omega

theorem jsOrElse_ne_empty (v : Option String) (d : String) (hd : d ≠ "") :
    jsOrElse v d ≠ "" := by
  cases v with
  | none => exact hd
  | some s =>
    by_cases h : s = "" <;> simp [jsOrElse, h, hd]

theorem jsEndsWith_append (a b : String) : jsEndsWith (a ++ b) b = true := by
  cases a with
  | mk la =>
    cases b with
    | mk lb =>
      show (lb.reverse.isPrefixOf ((la ++ lb).reverse)) = true
      rw [List.reverse_append]
      exact List.isPrefixOf_iff_prefix.mpr (List.prefix_append _ _)

theorem formatHostnames_ne_empty (hs : List String) (hne : ∀ x ∈ hs, x ≠ "") :
    formatHostnames (some hs) ≠ "" := by
  cases hs with
  | nil => decide
  | cons h t =>
    simp only [formatHostnames]
    rw [if_neg (show ¬((h :: t).length = 0) by simp)]
    by_cases hlen : (jsJoin ", " (h :: t)).length > 25
    · rw [if_pos hlen]
      intro he
      have hl := congrArg String.length he
      rw [strLenAppend, show ("..." : String).length = 3 from rfl,
        show ("" : String).length = 0 from rfl] at hl
      omega
    · rw [if_neg hlen]
      intro he
      have h1 : h ≠ "" := hne h (by simp)
      have h2 : h.length ≤ (jsJoin ", " (h :: t)).length := jsJoin_length_ge _ _ _
      have h3 : (jsJoin ", " (h :: t)).length = 0 := (strLenZeroIff _).mpr he
      exact h1 ((strLenZeroIff h).mp (by omega))

theorem jsSubstringTo_length (n : Nat) (s : String) :
    (jsSubstringTo n s).length = min n s.length := by
  cases s with
  | mk l =>
    show (l.take n).length = min n l.length
    exact List.length_take n l

theorem domainParamCheck_status (d : String) (e : Nat × String)
    (h : domainParamCheck (some d) = some e) : e.1 = 400 := by
  simp only [domainParamCheck] at h
  split_ifs at h
  · rw [← Option.some.inj h]
  · rw [← Option.some.inj h]
  · rw [← Option.some.inj h]

/-! ## Claims -/

/-- C1 counterexample: `formatHostnames` performs no blank filtering — on
the one-element list holding the blank hostname it returns the empty
string, while the claimed behaviour (filter blanks, then fall back) gives
the fallback token; the two disagree at this input. -/
theorem c1_counterexample :
    formatHostnames (some [""]) = ""
    ∧ formatHostnamesSpec (some [""]) = "N/A"
    ∧ formatHostnames (some [""]) ≠ formatHostnamesSpec (some [""]) := by
  refine ⟨rfl, rfl, ?_⟩
  decide

/-- C1 (amended): `formatHostnames` filters nothing; an absent or empty
list gives the fallback token "N/A"; otherwise all entries (blank ones
included) are joined with ", ", and the result is truncated to 25
characters total (22 of content plus the 3-character suffix "...") if and
only if the joined string's length exceeds 25, in which case the output
has length exactly 25 and ends with the ellipsis suffix. -/
theorem c1_amended :
    formatHostnames none = "N/A"
    ∧ formatHostnames (some []) = "N/A"
    ∧ (∀ hs : List String, hs ≠ [] →
        formatHostnames (some hs) =
          (if (jsJoin ", " hs).length > 25 then jsSubstringTo 22 (jsJoin ", " hs) ++ "..."
           else jsJoin ", " hs))
    ∧ (∀ hs : List String, hs ≠ [] → (jsJoin ", " hs).length > 25 →
        (formatHostnames (some hs)).length = 25
        ∧ jsEndsWith (formatHostnames (some hs)) "..." = true) := by
  have key : ∀ hs : List String, hs ≠ [] →
      formatHostnames (some hs) =
        (if (jsJoin ", " hs).length > 25 then jsSubstringTo 22 (jsJoin ", " hs) ++ "..."
         else jsJoin ", " hs) := by
    intro hs hne
    cases hs with
    | nil => exact absurd rfl hne
    | cons h t =>
      simp only [formatHostnames]
      rw [if_neg (show ¬((h :: t).length = 0) by simp)]
  refine ⟨rfl, rfl, key, ?_⟩
  intro hs hne hlen
  rw [key hs hne, if_pos hlen]
  constructor
  · rw [strLenAppend, jsSubstringTo_length, show ("..." : String).length = 3 from rfl]
    omega
  · exact jsEndsWith_append _ _

/-- C1 witness: a two-hostname list whose join exceeds 25 characters is
truncated to length 25 with the ellipsis suffix. -/
theorem c1_witness :
    (formatHostnames (some ["ns1.example.com", "ns2.example.com"])).length = 25
    ∧ jsEndsWith (formatHostnames (some ["ns1.example.com", "ns2.example.com"])) "..." = true :=
  c1_amended.2.2.2 ["ns1.example.com", "ns2.example.com"] (by decide) (by decide)

/-- C2 counterexample: the input "Example.com" contains a character outside
`[a-z0-9.-]` (the uppercase letter), yet `validateDomain` succeeds because
the charset check runs on the lowercased cleaned form. -/
theorem c2_counterexample :
    ("Example.com".toList.all domainCharOk) = false
    ∧ validateDomain "Example.com" = .ok "example.com" := ⟨rfl, rfl⟩

/-- C2 (amended): the charset rule applies to the cleaned form: for every
input string whose cleaned form (scheme and path stripped, lowercased,
trimmed) contains a character outside `[a-z0-9.-]`, `validateDomain` fails
with a 400 validation error. -/
theorem c2_amended (d : String)
    (hbad : ((cleanDomainOf d).toList.all domainCharOk) = false) :
    ∃ msg, validateDomain d = .error (400, msg) := by
  cases hc : domainParamCheck (some d) with
  | some e =>
    obtain ⟨st, msg⟩ := e
    have h4 : st = 400 := by
      have := domainParamCheck_status d (st, msg) hc
      simpa using this
    subst h4
    refine ⟨msg, ?_⟩
    simp only [validateDomain]
    rw [hc]
  | none =>
    have hv : validateDomain d = cleanAndCheck d := by
      simp only [validateDomain]
      rw [hc]
    rw [hv]
    simp only [cleanAndCheck]
    split_ifs with h1 h2 h3
    · exact ⟨_, rfl⟩
    · exact ⟨_, rfl⟩
    · rw [hbad] at h3
      exact absurd h3 (by decide)
    · exact ⟨_, rfl⟩

/-- C2 witness: "a_b.com" cleans to itself, contains an underscore, and is
rejected with a 400 error. -/
theorem c2_witness : ∃ msg, validateDomain "a_b.com" = .error (400, msg) :=
  c2_amended "a_b.com" (by decide)

/-- C3 counterexample: the input "HTTPS://Example.COM/path" is rejected
with 400 "Invalid domain format" rather than accepted as "example.com":
the scheme-stripping regular expression is case-sensitive and runs before
lowercasing, so the uppercase scheme survives into the cleaned form, which
then fails the dot check. -/
theorem c3_counterexample :
    validateDomain "HTTPS://Example.COM/path" = .error (400, "Invalid domain format")
    ∧ validateDomain "HTTPS://Example.COM/path" ≠ .ok "example.com" := by
  refine ⟨rfl, ?_⟩
  intro h
  exact Except.noConfusion
    (show (Except.error ((400 : Nat), "Invalid domain format") : Except (Nat × String) String)
        = .ok "example.com" from h)

/-- C3 (amended): on success the validation returns exactly the cleaned
domain — the input with a leading lowercase `http://` or `https://` scheme
stripped, the first `/` and everything after it removed, lowercased and
trimmed; "https://Example.COM/path" is accepted and cleans to
"example.com", but the scheme match is case-sensitive and precedes
lowercasing, so "HTTPS://Example.COM/path" is rejected with 400. -/
theorem c3_amended :
    validateDomain "https://Example.COM/path" = .ok "example.com"
    ∧ cleanDomainOf "https://Example.COM/path" = "example.com"
    ∧ validateDomain "HTTPS://Example.COM/path" = .error (400, "Invalid domain format")
    ∧ (∀ d c, validateDomain d = .ok c → c = cleanDomainOf d) := by
  refine ⟨rfl, rfl, rfl, ?_⟩
  intro d c h
  unfold validateDomain at h
  cases hc : domainParamCheck (some d) with
  | some e =>
    rw [hc] at h
    exact absurd (show Except.error e = Except.ok c from h) (by simp)
  | none =>
    rw [hc] at h
    have h2 : cleanAndCheck d = Except.ok c := h
    simp only [cleanAndCheck] at h2
    split_ifs at h2
    simp_all

/-- C3 witness: a mixed-case input with lowercase scheme and path is
accepted, and the value returned is its cleaned form. -/
theorem c3_witness : "sub.example.com" = cleanDomainOf "http://Sub.Example.com/a/b" :=
  c3_amended.2.2.2 "http://Sub.Example.com/a/b" "sub.example.com" rfl

/-- Record used by the C4 counterexample: one blank hostname entry and a
negative upstream age. -/
def c4CexRecord : WhoisRecord :=
  { nameServers := some { hostNames := some [""] }, estimatedDomainAge := some (-7) }

/-- C4 counterexample: a successful type=domain lookup over `c4CexRecord`
produces a DomainInformation whose hostnames field is the empty string
(not the fallback token) and whose estimated age is negative. -/
theorem c4_counterexample :
    processWhoisBody "domain" "example.com" (.obj (some c4CexRecord) none)
      = some (.ok (.domainInfo (buildDomainInfo c4CexRecord "example.com")))
    ∧ (buildDomainInfo c4CexRecord "example.com").hostnames = ""
    ∧ (buildDomainInfo c4CexRecord "example.com").estimatedDomainAge = -7 :=
  ⟨rfl, rfl, rfl⟩

/-- C4 (amended): provided the requested clean domain is non-empty, every
upstream hostname entry is non-blank, and the upstream estimated age — when
present — is non-negative, the produced DomainInformation has a non-empty
string in every string field and a non-negative estimated age (0 when the
upstream age is absent or zero). -/
theorem c4_amended (r : WhoisRecord) (cd : String) (hcd : cd ≠ "")
    (hhost : ∀ x ∈ hostNamesOf r, x ≠ "")
    (hage : ∀ a, r.estimatedDomainAge = some a → 0 ≤ a) :
    (buildDomainInfo r cd).domainName ≠ ""
    ∧ (buildDomainInfo r cd).registrar ≠ ""
    ∧ (buildDomainInfo r cd).registrationDate ≠ ""
    ∧ (buildDomainInfo r cd).expirationDate ≠ ""
    ∧ (buildDomainInfo r cd).hostnames ≠ ""
    ∧ 0 ≤ (buildDomainInfo r cd).estimatedDomainAge := by
  refine ⟨jsOrElse_ne_empty _ _ hcd, jsOrElse_ne_empty _ _ (by decide),
    formatDate_ne_empty _, formatDate_ne_empty _, formatHostnames_ne_empty _ hhost, ?_⟩
  show 0 ≤ jsOrElseInt r.estimatedDomainAge 0
  cases hra : r.estimatedDomainAge with
  | none => simp [jsOrElseInt]
  | some a =>
    have ha := hage a hra
    simp only [jsOrElseInt]
    split_ifs with h0
    · exact le_refl 0
    · exact ha

/-- Record used by the C4 witness: well-formed upstream data. -/
def c4WitnessRecord : WhoisRecord :=
  { registrarName := some "Reg Inc",
    nameServers := some { hostNames := some ["ns1.example.com"] },
    estimatedDomainAge := some 100 }

/-- C4 witness: the amended invariant instantiated at a concrete record. -/
theorem c4_witness :
    (buildDomainInfo c4WitnessRecord "example.com").domainName ≠ ""
    ∧ (buildDomainInfo c4WitnessRecord "example.com").registrar ≠ ""
    ∧ (buildDomainInfo c4WitnessRecord "example.com").registrationDate ≠ ""
    ∧ (buildDomainInfo c4WitnessRecord "example.com").expirationDate ≠ ""
    ∧ (buildDomainInfo c4WitnessRecord "example.com").hostnames ≠ ""
    ∧ 0 ≤ (buildDomainInfo c4WitnessRecord "example.com").estimatedDomainAge :=
  c4_amended c4WitnessRecord "example.com" (by decide) (by decide)
    (by
      intro a ha
      have h100 : (some (100 : Int) : Option Int) = some a := ha
      injection h100 with h
      omega)

/-- C5 counterexample: with an object body carrying neither a WhoisRecord
nor an ErrorMessage, the lookup fails with HTTP status 404, not the
claimed 500. -/
theorem c5_counterexample :
    processWhoisBody "domain" "example.com" (.obj none none)
      = some (.error (404, "No WHOIS record found for this domain"))
    ∧ (404 : Nat) ≠ 500 := ⟨rfl, by decide⟩

/-- C5 (amended): when the parsed provider body is an object with no
WhoisRecord, a truthy ErrorMessage makes the lookup fail with a 400
validation error carrying that message; otherwise (no message, or an empty
one) it fails with "No WHOIS record found for this domain" and HTTP status
404 — a not-found response, not a 500. -/
theorem c5_amended (ty cd m : String) :
    (m ≠ "" → processWhoisBody ty cd (.obj none (some m))
      = some (.error (400, "WHOIS lookup failed: " ++ m)))
    ∧ processWhoisBody ty cd (.obj none none)
      = some (.error (404, "No WHOIS record found for this domain"))
    ∧ processWhoisBody ty cd (.obj none (some ""))
      = some (.error (404, "No WHOIS record found for this domain")) := by
  refine ⟨?_, rfl, rfl⟩
  intro hm
  have ht : jsTruthyStr (some m) = true := by simp [jsTruthyStr, hm]
  simp only [processWhoisBody, ht, if_true]
  rfl

/-- C5 witness: a concrete provider error message is surfaced in a 400
response. -/
theorem c5_witness :
    processWhoisBody "domain" "example.com" (.obj none (some "Invalid domain name"))
      = some (.error (400, "WHOIS lookup failed: Invalid domain name")) :=
  (c5_amended "domain" "example.com" "Invalid domain name").1 (by decide)

/-- C6: the gateway maps each non-2xx upstream status to exactly the
prescribed response — 400 to a 400 validation error, 401 and 403 to 500
auth errors, 429 to a 429 rate-limit error, 500/502/503 to a 503
unavailability error, and any other non-2xx status to a 500 carrying the
provider's status text — for every body, which is never inspected on the
non-2xx path. -/
theorem c6_thm (txt : String) (body : JsonBody) (ty cd : String) :
    processWhoisResponse ty cd ⟨400, txt, body⟩
      = some (.error (400, "Invalid domain name or request format"))
    ∧ processWhoisResponse ty cd ⟨401, txt, body⟩
      = some (.error (500, "WHOIS API authentication failed"))
    ∧ processWhoisResponse ty cd ⟨403, txt, body⟩
      = some (.error (500, "WHOIS API access forbidden"))
    ∧ processWhoisResponse ty cd ⟨429, txt, body⟩
      = some (.error (429, "WHOIS API rate limit exceeded. Please try again later."))
    ∧ processWhoisResponse ty cd ⟨500, txt, body⟩
      = some (.error (503, "WHOIS service is temporarily unavailable"))
    ∧ processWhoisResponse ty cd ⟨502, txt, body⟩
      = some (.error (503, "WHOIS service is temporarily unavailable"))
    ∧ processWhoisResponse ty cd ⟨503, txt, body⟩
      = some (.error (503, "WHOIS service is temporarily unavailable"))
    ∧ (∀ st, httpOk st = false → st ∉ ([400, 401, 403, 429, 500, 502, 503] : List Nat) →
        processWhoisResponse ty cd ⟨st, txt, body⟩
          = some (.error (500, "WHOIS service error: " ++ txt))) := by
  refine ⟨rfl, rfl, rfl, rfl, rfl, rfl, rfl, ?_⟩
  intro st hok hmem
  simp only [List.mem_cons, List.not_mem_nil, or_false, not_or] at hmem
  obtain ⟨n400, n401, n403, n429, n500, n502, n503⟩ := hmem
  have hstep : processWhoisResponse ty cd ⟨st, txt, body⟩
      = some (.error (mapWhoisHttpError st txt)) := by
    unfold processWhoisResponse
    rw [if_neg (by simp [hok])]
  rw [hstep]
  unfold mapWhoisHttpError
  rw [if_neg n400, if_neg n401, if_neg n403, if_neg n429,
    if_neg (show ¬(st = 500 ∨ st = 502 ∨ st = 503) by simp [n500, n502, n503])]

/-- C6 witness: an unmapped non-2xx status (418) yields a 500 carrying
the provider's status text, independently of the body. -/
theorem c6_witness :
    processWhoisResponse "domain" "example.com" ⟨418, "I am a teapot", .unparseable⟩
      = some (.error (500, "WHOIS service error: I am a teapot")) :=
  (c6_thm "I am a teapot" .unparseable "domain" "example.com").2.2.2.2.2.2.2
    418 (by decide) (by decide)

/-- C7: the suggestion gateway fails with a 500 whenever the generation
call returns no text, non-string text, or text that trims to empty — never
succeeding with the empty string — and on success returns exactly the
trimmed text, unsplit. -/
theorem c7_thm :
    validateAiResponseText .missing = .error (500, "AI service returned invalid response")
    ∧ validateAiResponseText .nonString = .error (500, "AI service returned invalid response")
    ∧ (∀ s, jsTrim s = "" → ∃ msg, validateAiResponseText (.str s) = .error (500, msg))
    ∧ (∀ s, jsTrim s ≠ "" → validateAiResponseText (.str s) = .ok (jsTrim s))
    ∧ (∀ t s, validateAiResponseText t = .ok s → s ≠ "") := by
  refine ⟨rfl, rfl, ?_, ?_, ?_⟩
  · intro s hs
    simp only [validateAiResponseText]
    split_ifs with h1 h2
    · exact ⟨_, rfl⟩
    · exact ⟨_, rfl⟩
    · exact absurd ((strLenZeroIff _).mpr hs) h2
  · intro s hs
    have hsne : ¬(s = "") := fun he => hs (by rw [he]; rfl)
    simp only [validateAiResponseText]
    rw [if_neg hsne, if_neg (fun hl => hs ((strLenZeroIff _).mp hl))]
  · intro t s h he
    subst he
    cases t with
    | missing => simp [validateAiResponseText] at h
    | nonString => simp [validateAiResponseText] at h
    | str s0 =>
      simp only [validateAiResponseText] at h
      split_ifs at h with h1 h2
      simp_all [strLenZeroIff]

/-- C7 witness: surrounding whitespace is trimmed and the multi-line body
is returned as one string. -/
theorem c7_witness :
    validateAiResponseText (.str "  a.com\nb.com  ") = .ok "a.com\nb.com" :=
  (c7_thm.2.2.2.1 "  a.com\nb.com  " (by decide)).trans rfl

/-- C8: formatDate yields the fallback token on an absent, empty or
unparseable argument, and on a parseable argument the YYYY-MM-DD slice of
the ISO form of the parsed date; in particular the four concrete cases of
the claim. -/
theorem c8_thm :
    formatDate none = "N/A"
    ∧ formatDate (some "") = "N/A"
    ∧ formatDate (some "not-a-date") = "N/A"
    ∧ formatDate (some "2023-12-25T10:30:00Z") = "2023-12-25"
    ∧ (∀ ds t, jsDateParse ds = some t →
        formatDate (some ds) = jsSplitHead 'T' (toISOString t))
    ∧ (∀ ds, jsDateParse ds = none → formatDate (some ds) = "N/A") := by
  refine ⟨rfl, rfl, rfl, rfl, ?_, ?_⟩
  · intro ds t h
    have hne : ds ≠ "" := by
      intro he
      rw [he] at h
      exact Option.noConfusion ((show jsDateParse "" = none from rfl).symm.trans h)
    simp only [formatDate]
    rw [if_neg hne, h]
  · intro ds h
    by_cases he : ds = ""
    · rw [he]; rfl
    · simp only [formatDate]
      rw [if_neg he, h]

/-- C8 witness: a plain date string parses and formatDate returns the
date slice of its ISO form. -/
theorem c8_witness :
    formatDate (some "2023-12-25") = jsSplitHead 'T' (toISOString 1703462400000) :=
  c8_thm.2.2.2.2.1 "2023-12-25" 1703462400000 rfl

/-- C9: the three contact-name resolvers implement the claimed rule —
organization when present and non-empty, else name when present and
non-empty, else the fallback token, also for an absent contact — and are
extensionally equal to one another. -/
theorem c9_thm :
    (∀ c, getRegistrantName c = resolveContactNameSpec c)
    ∧ (∀ c, getTechnicalContactName c = getRegistrantName c)
    ∧ (∀ c, getAdministrativeContactName c = getRegistrantName c)
    ∧ getRegistrantName (some { organization := some "X", name := some "Y" }) = "X"
    ∧ getRegistrantName (some { name := some "Y" }) = "Y"
    ∧ getRegistrantName (some {}) = "N/A"
    ∧ getRegistrantName none = "N/A" := by
  refine ⟨?_, ?_, ?_, rfl, rfl, rfl, rfl⟩
  · intro c
    cases c with
    | none => rfl
    | some c =>
      obtain ⟨o, n⟩ := c
      cases o with
      | none =>
        cases n with
        | none => rfl
        | some n0 =>
          by_cases h : n0 = "" <;>
            simp [getRegistrantName, resolveContactNameSpec, jsOrElse, h]
      | some o0 =>
        by_cases ho : o0 = ""
        · cases n with
          | none =>
            simp [getRegistrantName, resolveContactNameSpec, jsOrElse, ho]
          | some n0 =>
            by_cases h : n0 = "" <;>
              simp [getRegistrantName, resolveContactNameSpec, jsOrElse, ho, h]
        · simp [getRegistrantName, resolveContactNameSpec, jsOrElse, ho]
  · intro c
    cases c <;> rfl
  · intro c
    cases c <;> rfl

/-- C10: the WHOIS API-key presence check precedes parameter validation:
with the key absent (or empty) every request — including ones with
missing or invalid domain and type parameters — receives the 500
configuration error, while the same invalid requests receive 400
validation errors once a key is present. -/
theorem c10_thm :
    (∀ domain type_, getRouteChecks none domain type_
        = some (500, "WHOIS service is not properly configured"))
    ∧ (∀ domain type_, getRouteChecks (some "") domain type_
        = some (500, "WHOIS service is not properly configured"))
    ∧ getRouteChecks (some "key0") none none = some (400, "Domain parameter is required")
    ∧ getRouteChecks (some "key0") (some "no-dot-domain") (some "bogus")
        = some (400, "Type parameter must be domain or contact")
    ∧ getRouteChecks (some "key0") (some "??bad??") (some "domain")
        = some (400, "Invalid domain format")
    ∧ getRouteChecks (some "key0") (some "example.com") (some "domain") = none := by
  exact ⟨fun _ _ => rfl, fun _ _ => rfl, rfl, rfl, rfl, rfl⟩

end DomainLookup
